import Mathlib

/-!
Shallow embedding of the Renju repository: `renju/board.py`, `renju/rules.py`
and `renju/game.py`, together with theorems settling the specification claims
about bounds checking, win and forbidden-move detection, the opening protocol
state machine, error handling and history persistence.

Python machine behaviour is modelled explicitly: list subscripts follow
Python semantics (negative indices wrap, out-of-range indices raise
`IndexError`), fallible code returns `Except PyErr`, and stateful methods
return the updated `Game` value alongside their result, so that a method that
raises still exposes the mutations made before the raise, exactly as a Python
`Game` object would retain them.
-/

set_option maxRecDepth 100000

namespace Renju

/-- The Python exception classes the embedded code can raise. -/
inductive PyErr where
  | typeError
  | indexError
  | stopIteration
  | valueError
deriving DecidableEq, Repr

/-- `Cell` enum from board.py: EMPTY ".", BLACK "B", WHITE "W". -/
inductive Cell where
  | EMPTY
  | BLACK
  | WHITE
deriving DecidableEq, Repr

/-- `Cell.value`: the single character each enum member carries. -/
def Cell.value : Cell → Char
  | .EMPTY => '.'
  | .BLACK => 'B'
  | .WHITE => 'W'

/-- `Point` dataclass from board.py; Python ints, hence `Int` coordinates. -/
structure Point where
  row : Int
  col : Int
deriving DecidableEq, Repr

/-- Python list subscript `l[i]`: an index in `[0, len)` reads directly, an
index in `[-len, 0)` reads `l[len + i]`, and anything else raises
`IndexError`. -/
def pyGet {α : Type} (l : List α) (i : Int) : Except PyErr α :=
  if h : 0 ≤ i ∧ i < (l.length : Int) then
    .ok (l.get ⟨i.toNat, by omega⟩)
  else if h2 : -(l.length : Int) ≤ i ∧ i < 0 then
    .ok (l.get ⟨(i + l.length).toNat, by omega⟩)
  else
    .error .indexError

/-- Python list subscript assignment `l[i] = a`, same index rules as
`pyGet`. -/
def pySet {α : Type} (l : List α) (i : Int) (a : α) : Except PyErr (List α) :=
  if 0 ≤ i ∧ i < (l.length : Int) then
    .ok (l.set i.toNat a)
  else if -(l.length : Int) ≤ i ∧ i < 0 then
    .ok (l.set (i + l.length).toNat a)
  else
    .error .indexError

/-- `Board` from board.py: a `size` and the `size × size` grid of cells. -/
structure Board where
  size : Nat
  grid : List (List Cell)
deriving DecidableEq, Repr

/-- `Board.__init__`: an all-empty `size × size` grid. -/
def Board.init (size : Nat) : Board :=
  { size := size, grid := List.replicate size (List.replicate size Cell.EMPTY) }

/-- `Board.in_bounds`: `0 <= row < size and 0 <= col < size`. -/
def Board.in_bounds (b : Board) (p : Point) : Bool :=
  decide (0 ≤ p.row ∧ p.row < (b.size : Int) ∧ 0 ≤ p.col ∧ p.col < (b.size : Int))

/-- `Board.get`: `self.grid[point.row][point.col]`, Python subscripting (no
bounds guard of its own). -/
def Board.get (b : Board) (p : Point) : Except PyErr Cell :=
  match pyGet b.grid p.row with
  | .error e => .error e
  | .ok row => pyGet row p.col

/-- `Board.place`: `self.grid[point.row][point.col] = cell`; the row is
looked up first, then mutated, both with Python subscripting. -/
def Board.place (b : Board) (p : Point) (c : Cell) : Except PyErr Board :=
  match pyGet b.grid p.row with
  | .error e => .error e
  | .ok row =>
    match pySet row p.col c with
    | .error e => .error e
    | .ok row2 =>
      match pySet b.grid p.row row2 with
      | .error e => .error e
      | .ok grid2 => .ok { b with grid := grid2 }

/-- `Board.is_empty`: `self.get(point) == Cell.EMPTY`. -/
def Board.is_empty (b : Board) (p : Point) : Except PyErr Bool :=
  match b.get p with
  | .error e => .error e
  | .ok c => .ok (decide (c = Cell.EMPTY))

/-- `board.grid[row][col]` at indices the caller has already guarded to lie
in `[0, size)`; rules.py reads the grid only under that guard, where the
Board shape invariant makes `getD` agree with the Python subscript. -/
def Board.cellAt (b : Board) (row col : Int) : Cell :=
  (b.grid.getD row.toNat []).getD col.toNat Cell.EMPTY

/-- `Board.empty_points`: the coordinates of empty cells in row-major order
(the Python generator materialised as a list). -/
def Board.empty_points (b : Board) : List Point :=
  ((List.range b.size).map (fun r =>
    (List.range b.size).filterMap (fun c =>
      if (b.grid.getD r []).getD c Cell.EMPTY = Cell.EMPTY then
        some ⟨(r : Int), (c : Int)⟩
      else none))).flatten

/-- Shape invariant maintained by `Board.init` and `Board.place`: the grid
is a `size × size` matrix. -/
def Board.WF (b : Board) : Prop :=
  b.grid.length = b.size ∧ ∀ row ∈ b.grid, row.length = b.size

/-- Test fixture: fold the embedded `Board.place` over a list of points,
keeping the board unchanged on a raising placement. -/
def placeAll (b : Board) (c : Cell) (pts : List Point) : Board :=
  pts.foldl (fun acc p => match acc.place p c with
    | .ok b2 => b2
    | .error _ => acc) b

/-- `DIRECTIONS` from rules.py: the four canonical axes, in source order. -/
def DIRECTIONS : List (Int × Int) := [(0, 1), (1, 0), (1, 1), (1, -1)]

/-- `LineResult` dataclass from rules.py. -/
structure LineResult where
  length : Nat
  points : List Point
deriving DecidableEq, Repr

/-- `ForbiddenResult` dataclass from rules.py. -/
structure ForbiddenResult where
  is_forbidden : Bool
  reason : Option String
deriving DecidableEq, Repr

/-- `RuleSet` enum from rules.py. -/
inductive RuleSet where
  | RENJU
  | FREESTYLE
deriving DecidableEq, Repr

/-- One walk loop of `line_from_point`: starting at `(row, col)`, while the
position is on the board and holds `cell`, record the point and step by
`(dr, dc)`. The fuel bounds the loop; for every direction in `DIRECTIONS`
at least one coordinate moves monotonically, so `b.size` steps always leave
the board and the fuel is never exhausted on those directions. -/
def lineWalk (b : Board) (cell : Cell) (dr dc : Int) : Int → Int → Nat → List Point
  | _, _, 0 => []
  | row, col, fuel + 1 =>
    if 0 ≤ row ∧ row < (b.size : Int) ∧ 0 ≤ col ∧ col < (b.size : Int) then
      if b.cellAt row col = cell then
        ⟨row, col⟩ :: lineWalk b cell dr dc (row + dr) (col + dc) fuel
      else []
    else []

/-- `line_from_point` from rules.py: the maximal contiguous run of `cell`
through `point` along axis `(dr, dc)`; the backward walk prepends with
`insert(0, ...)`, so the point list runs from the backward end to the
forward end with the pivot in the middle, and the pivot always counts. -/
def line_from_point (b : Board) (point : Point) (dr dc : Int) (cell : Cell) :
    LineResult :=
  let back := lineWalk b cell (-dr) (-dc) (point.row - dr) (point.col - dc) b.size
  let forward := lineWalk b cell dr dc (point.row + dr) (point.col + dc) b.size
  { length := 1 + back.length + forward.length
    points := back.reverse ++ point :: forward }

/-- `longest_line` from rules.py: fold over `DIRECTIONS`, keeping the first
axis of strictly greatest length, seeded with the bare pivot. -/
def longest_line (b : Board) (point : Point) (cell : Cell) : LineResult :=
  DIRECTIONS.foldl
    (fun best d =>
      let current := line_from_point b point d.1 d.2 cell
      if best.length < current.length then current else best)
    { length := 1, points := [point] }

/-- `winner_for_move` from rules.py: Freestyle or White need length at least
five; Black under Renju needs exactly five. -/
def winner_for_move (b : Board) (point : Point) (cell : Cell)
    (ruleset : RuleSet) : Bool :=
  let line := longest_line b point cell
  if ruleset = RuleSet.FREESTYLE then decide (5 ≤ line.length)
  else if cell = Cell.WHITE then decide (5 ≤ line.length)
  else decide (line.length = 5)

/-- The rewind loop of `_axis_string`: step backwards while the previous
position is still on the board. Fuel `b.size` suffices on the directions in
`DIRECTIONS` for the same reason as in `lineWalk`. -/
def axisRewind (b : Board) (dr dc : Int) : Int → Int → Nat → Int × Int
  | row, col, 0 => (row, col)
  | row, col, fuel + 1 =>
    if 0 ≤ row - dr ∧ row - dr < (b.size : Int) ∧
        0 ≤ col - dc ∧ col - dc < (b.size : Int) then
      axisRewind b dr dc (row - dr) (col - dc) fuel
    else (row, col)

/-- The collect loop of `_axis_string`: gather cell characters while on the
board, stepping by `(dr, dc)`. -/
def axisCollect (b : Board) (dr dc : Int) : Int → Int → Nat → List Char
  | _, _, 0 => []
  | row, col, fuel + 1 =>
    if 0 ≤ row ∧ row < (b.size : Int) ∧ 0 ≤ col ∧ col < (b.size : Int) then
      (b.cellAt row col).value :: axisCollect b dr dc (row + dr) (col + dc) fuel
    else []

/-- `_axis_string` from rules.py: the full axis through `point`, edge to
edge, rendered as cell characters with an `X` sentinel at each end. -/
def axis_string (b : Board) (point : Point) (dr dc : Int) : List Char :=
  let start := axisRewind b dr dc point.row point.col b.size
  'X' :: (axisCollect b dr dc start.1 start.2 b.size ++ ['X'])

/-- The index scan behind `strFind`: try index `i`, then `i + 1`, and so on;
an index is a match when it leaves room for the pattern and the slice
`line[i : i + len(pattern)]` equals the pattern. The fuel only bounds the
scan; `line.length + 1 - i` steps always reach the first match or the end. -/
def findFrom (line pattern : List Char) : Nat → Nat → Option Nat
  | _, 0 => none
  | i, fuel + 1 =>
    if line.length < i + pattern.length then none
    else if (line.drop i).take pattern.length = pattern then some i
    else findFrom line pattern (i + 1) fuel

/-- Python `line.find(pattern, start)`: the least index `i` at or past
`start` where the slice `line[i : i + len(pattern)]` equals `pattern`, or
`none` where Python returns `-1`. -/
def strFind (line pattern : List Char) (start : Nat) : Option Nat :=
  findFrom line pattern start (line.length + 1 - start)

/-- The scanning loop of `_count_patterns` for a single pattern: count each
match and resume one position past the start of the match. The fuel bounds
the loop; `line.length + 1` iterations always suffice because the scan start
strictly increases and `find` fails once it passes the end. -/
def countLoop (line pattern : List Char) : Nat → Nat → Nat
  | _, 0 => 0
  | start, fuel + 1 =>
    match strFind line pattern start with
    | none => 0
    | some idx => 1 + countLoop line pattern (idx + 1) fuel

/-- `_count_patterns` from rules.py: the total of the per-pattern counts. -/
def count_patterns (line : List Char) (patterns : List (List Char)) : Nat :=
  (patterns.map (fun p => countLoop line p 0 (line.length + 1))).sum

/-- `_open_three_count` from rules.py. -/
def open_three_count (line : List Char) : Nat :=
  count_patterns line [".BBB.".toList, ".BB.B.".toList, ".B.BB.".toList]

/-- `_open_four_count` from rules.py. -/
def open_four_count (line : List Char) : Nat :=
  count_patterns line
    [".BBBB.".toList, ".BBB.B.".toList, ".BB.BB.".toList, ".B.BBB.".toList]

/-- `_overline_exists` from rules.py: some axis carries a black run of six
or more through the point. -/
def overline_exists (b : Board) (point : Point) : Bool :=
  DIRECTIONS.any (fun d =>
    decide (6 ≤ (line_from_point b point d.1 d.2 Cell.BLACK).length))

/-- The double-three total of `forbidden_move`: `_open_three_count` summed
over the four axis strings (accumulated in one loop in the source). -/
def openThreesTotal (b : Board) (point : Point) : Nat :=
  (DIRECTIONS.map (fun d => open_three_count (axis_string b point d.1 d.2))).sum

/-- The double-four total of `forbidden_move`, accumulated alongside
`openThreesTotal` in the source loop. -/
def openFoursTotal (b : Board) (point : Point) : Nat :=
  (DIRECTIONS.map (fun d => open_four_count (axis_string b point d.1 d.2))).sum

/-- `forbidden_move` from rules.py: overline first, then double-three, then
double-four; the first positive check returns immediately. -/
def forbidden_move (b : Board) (point : Point) : ForbiddenResult :=
  if overline_exists b point then
    { is_forbidden := true, reason := some "overline" }
  else if 2 ≤ openThreesTotal b point then
    { is_forbidden := true, reason := some "double-three" }
  else if 2 ≤ openFoursTotal b point then
    { is_forbidden := true, reason := some "double-four" }
  else
    { is_forbidden := false, reason := none }

/-- `legal_move` from rules.py: everything is legal under Freestyle or for
White; Black under Renju delegates to `forbidden_move`. -/
def legal_move (b : Board) (point : Point) (cell : Cell) (ruleset : RuleSet) :
    ForbiddenResult :=
  if ruleset = RuleSet.FREESTYLE then { is_forbidden := false, reason := none }
  else if cell = Cell.WHITE then { is_forbidden := false, reason := none }
  else forbidden_move b point

/-- `winning_line` from rules.py: the longest-line points when the ruleset
and colour deem the move winning, else the empty list. -/
def winning_line (b : Board) (point : Point) (cell : Cell) (ruleset : RuleSet) :
    List Point :=
  let line := longest_line b point cell
  if ruleset = RuleSet.FREESTYLE ∧ 5 ≤ line.length then line.points
  else if ruleset = RuleSet.RENJU ∧ cell = Cell.WHITE ∧ 5 ≤ line.length then
    line.points
  else if ruleset = RuleSet.RENJU ∧ cell = Cell.BLACK ∧ line.length = 5 then
    line.points
  else []

/-- `GameStatus` enum from game.py. -/
inductive GameStatus where
  | PLAYING
  | BLACK_WON
  | WHITE_WON
  | ILLEGAL_MOVE
  | DRAW
deriving DecidableEq, Repr

/-- `GameStatus.value` strings. -/
def GameStatus.value : GameStatus → String
  | .PLAYING => "playing"
  | .BLACK_WON => "blackWon"
  | .WHITE_WON => "whiteWon"
  | .ILLEGAL_MOVE => "illegalMove"
  | .DRAW => "draw"

/-- `Player` enum from game.py. -/
inductive Player where
  | ONE
  | TWO
deriving DecidableEq, Repr

/-- `Player.value` strings. -/
def Player.value : Player → String
  | .ONE => "Player 1"
  | .TWO => "Player 2"

/-- `Move` dataclass from game.py. -/
structure Move where
  player : Player
  cell : Cell
  point : Point
deriving DecidableEq, Repr

/-- `MoveResult` dataclass from game.py. -/
structure MoveResult where
  success : Bool
  status : GameStatus
  message : String
  forbidden : Option ForbiddenResult
  winning_points : List Point
deriving DecidableEq, Repr

/-- A `MoveResult` built with the dataclass defaults for `forbidden` and
`winning_points`. -/
def mkMoveResult (success : Bool) (status : GameStatus) (message : String) :
    MoveResult :=
  { success := success, status := status, message := message
    forbidden := none, winning_points := [] }

/-- `Game` from game.py. The two-entry `player_colors` dict (insertion order
Player.ONE then Player.TWO) is the field pair `color_one`, `color_two`. The
file at `history_path` is modelled by `stored` (`none` before the first
write); `history_path` itself is an uninterpreted string fixed at construction (the
source derives it from a timestamp and a uuid, which the embedding takes as
a parameter). -/
structure Game where
  board : Board
  current_player : Player
  status : GameStatus
  history : List Move
  winning_points : List Point
  history_path : String
  history_saved : Bool
  stored : Option String
  last_forbidden : Option (Point × String)
  color_one : Cell
  color_two : Cell
  swap_available : Bool
  swap_decided : Bool
  candidate_points : List Point
  candidate_removal_required : Bool
  candidate_player : Option Player
deriving DecidableEq, Repr

/-- `Game.__init__`. -/
def Game.init (size : Nat) (history_path : String) : Game :=
  { board := Board.init size
    current_player := Player.ONE
    status := GameStatus.PLAYING
    history := []
    winning_points := []
    history_path := history_path
    history_saved := false
    stored := none
    last_forbidden := none
    color_one := Cell.BLACK
    color_two := Cell.WHITE
    swap_available := false
    swap_decided := false
    candidate_points := []
    candidate_removal_required := false
    candidate_player := none }

/-- `self.player_colors[player]`. -/
def Game.player_color (g : Game) : Player → Cell
  | Player.ONE => g.color_one
  | Player.TWO => g.color_two

/-- `Game.other_player`. -/
def Game.other_player (player : Player) : Player :=
  if player = Player.ONE then Player.TWO else Player.ONE

/-- `Game.switch_player`. -/
def Game.switch_player (g : Game) : Game :=
  { g with current_player := Game.other_player g.current_player }

/-- `Game.current_cell`. -/
def Game.current_cell (g : Game) : Cell :=
  g.player_color g.current_player

/-- `Game._player_for_cell`: first matching dict entry in insertion order,
`ValueError` when no player holds the cell. -/
def Game.player_for_cell (g : Game) (cell : Cell) : Except PyErr Player :=
  if g.color_one = cell then .ok Player.ONE
  else if g.color_two = cell then .ok Player.TWO
  else .error .valueError

/-- `Game.decide_swap`: returns the message string of the source alongside
the updated state. -/
def Game.decide_swap (g : Game) (swap : Bool) : Except PyErr String × Game :=
  if ¬g.swap_available ∨ g.swap_decided then
    (.ok "Swap decision is not available.", g)
  else if g.current_cell ≠ Cell.WHITE then
    (.ok "Only the white player can decide whether to swap.", g)
  else
    let g1 := { g with swap_decided := true, swap_available := false }
    if swap then
      let g2 := { g1 with color_one := g1.color_two, color_two := g1.color_one }
      match g2.player_for_cell Cell.WHITE with
      | .error e => (.error e, g2)
      | .ok p => (.ok "Colors swapped.", { g2 with current_player := p })
    else
      match g1.player_for_cell Cell.WHITE with
      | .error e => (.error e, g1)
      | .ok p => (.ok "Colors unchanged.", { g1 with current_player := p })

/-- `Game.should_start_candidate_phase`. -/
def Game.should_start_candidate_phase (g : Game) : Bool :=
  decide (g.history.length = 4) && decide (g.current_cell = Cell.BLACK)
    && g.candidate_points.isEmpty && !g.candidate_removal_required

/-- `Game.save_history`: serialise the match record and write it once; the
`open(...).write(content)` call is modelled by setting `stored`. -/
def Game.save_history (g : Game) : Game :=
  if g.history_saved then g
  else
    let moves := g.history.map (fun m =>
      m.player.value ++ "-" ++ String.singleton m.cell.value ++ "(" ++
        toString (m.point.row + 1) ++ "," ++ toString (m.point.col + 1) ++ ")")
    let summary := ["Result: " ++ g.status.value,
      "Moves: " ++ (if moves.isEmpty then "none" else String.intercalate " " moves)]
    let summary := match g.last_forbidden with
      | some (point, reason) =>
          summary ++ ["Forbidden: B(" ++ toString (point.row + 1) ++ "," ++
            toString (point.col + 1) ++ ") " ++ reason]
      | none => summary
    let content := String.intercalate "\n" summary ++ "\n" ++
      String.mk (List.replicate 40 '-') ++ "\n"
    { g with stored := some content, history_saved := true }

/-- `Game._finalize_if_complete`. -/
def Game.finalize_if_complete (g : Game) : Game :=
  if g.status ≠ GameStatus.PLAYING ∧ ¬g.history_saved then g.save_history else g

/-- `Game.place_candidate`. The branches before the tentative placement are
embedded verbatim. The line `forbidden = legal_move(self.board, point,
self.current_cell())` at game.py:141 passes three arguments to `legal_move`,
whose four positional parameters (`ruleset` last) have no defaults, so
Python raises `TypeError` at the call with the tentative stone still on the
board; every later line of the method is unreachable. -/
def Game.place_candidate (g : Game) (point : Point) :
    Except PyErr MoveResult × Game :=
  if g.candidate_removal_required then
    (.ok (mkMoveResult false g.status
      "White must remove one of the candidate moves before continuing."), g)
  else
    let g := if g.candidate_points.isEmpty then
      { g with candidate_player := some g.current_player } else g
    if ¬g.board.in_bounds point then
      (.ok (mkMoveResult false g.status "Move is out of bounds."), g)
    else
      match g.board.is_empty point with
      | .error e => (.error e, g)
      | .ok empty =>
        if ¬empty then
          (.ok (mkMoveResult false g.status "Intersection is already occupied."), g)
        else
          match g.board.place point g.current_cell with
          | .error e => (.error e, g)
          | .ok board1 => (.error .typeError, { g with board := board1 })

/-- `Game.place_move`. The rejection ladder is embedded verbatim; as in
`place_candidate`, the `legal_move` call at game.py:228 omits the required
`ruleset` argument, so a placement that passes validation raises `TypeError`
with the tentative stone still on the board, and the forbidden branch, the
history append and the win and draw checks are unreachable. -/
def Game.place_move (g : Game) (point : Point) : Except PyErr MoveResult × Game :=
  if g.status ≠ GameStatus.PLAYING then
    (.ok (mkMoveResult false g.status "Game is already over."), g)
  else if g.swap_available ∧ ¬g.swap_decided then
    (.ok (mkMoveResult false g.status
      "White must decide whether to swap colors before continuing."), g)
  else if g.should_start_candidate_phase ∨ ¬g.candidate_points.isEmpty then
    g.place_candidate point
  else if g.candidate_removal_required then
    (.ok (mkMoveResult false g.status
      "White must remove one of the candidate moves before continuing."), g)
  else if ¬g.board.in_bounds point then
    (.ok (mkMoveResult false g.status "Move is out of bounds."), g)
  else
    match g.board.is_empty point with
    | .error e => (.error e, g)
    | .ok empty =>
      if ¬empty then
        (.ok (mkMoveResult false g.status "Intersection is already occupied."), g)
      else
        match g.board.place point g.current_cell with
        | .error e => (.error e, g)
        | .ok board1 => (.error .typeError, { g with board := board1 })

/-- `Game.remove_candidate`. Embedded verbatim up to the rule-engine call:
the guards, the removal (`self.board.place(point, Cell.EMPTY)`), the
`next(...)` pick of the remaining candidate (raising `StopIteration` when
every candidate equals the removed point), the clearing of the cycle state,
the tracking-error return and the history append. The call
`winner_for_move(self.board, remaining, cell)` at game.py:186 again omits
the required `ruleset` argument, so once a candidate player is tracked the
method raises `TypeError` after those mutations have happened. -/
def Game.remove_candidate (g : Game) (point : Point) :
    Except PyErr MoveResult × Game :=
  if ¬g.candidate_removal_required ∨ g.candidate_points.isEmpty then
    (.ok (mkMoveResult false g.status "No candidate moves to remove."), g)
  else if point ∉ g.candidate_points then
    (.ok (mkMoveResult false g.status
      "Select one of the candidate moves to remove."), g)
  else
    match g.board.place point Cell.EMPTY with
    | .error e => (.error e, g)
    | .ok board1 =>
      let g1 := { g with board := board1 }
      match g1.candidate_points.find? (fun pt => decide (pt ≠ point)) with
      | none => (.error .stopIteration, g1)
      | some remaining =>
        let candidate_player := g1.candidate_player
        let g2 := { g1 with
          candidate_points := ([] : List Point),
          candidate_removal_required := false,
          candidate_player := (none : Option Player) }
        match candidate_player with
        | none =>
          (.ok (mkMoveResult false g2.status "Candidate move tracking error."), g2)
        | some cp =>
          let cell := g2.player_color cp
          let g3 := { g2 with history :=
            g2.history ++ [{ player := cp, cell := cell, point := remaining }] }
          (.error .typeError, g3)

/-- Reference resolver for Python list subscripts, stating which physical
index in `[0, n)` an integer index addresses, if any: used to phrase the
bounds-behaviour of `Board.get` and `Board.place`. -/
def pyIndex (n : Nat) (i : Int) : Option Nat :=
  if 0 ≤ i ∧ i < (n : Int) then some i.toNat
  else if -(n : Int) ≤ i ∧ i < 0 then some (i + n).toNat
  else none

/-- Fixture: a 13-board where the stone at (6,6) sits in a horizontal black
run of six and simultaneously in vertical and diagonal open threes. -/
def b13Overline : Board :=
  placeAll (Board.init 13) Cell.BLACK
    [⟨6, 3⟩, ⟨6, 4⟩, ⟨6, 5⟩, ⟨6, 6⟩, ⟨6, 7⟩, ⟨6, 8⟩, ⟨5, 6⟩, ⟨7, 6⟩, ⟨5, 5⟩, ⟨7, 7⟩]

/-- Fixture: a 13-board where (6,6) forms two open threes (row and column)
and the two diagonals through it each carry an open four. -/
def b13DoubleDouble : Board :=
  placeAll (Board.init 13) Cell.BLACK
    [⟨6, 5⟩, ⟨6, 6⟩, ⟨6, 7⟩, ⟨5, 6⟩, ⟨7, 6⟩,
     ⟨1, 1⟩, ⟨2, 2⟩, ⟨3, 3⟩, ⟨4, 4⟩, ⟨1, 11⟩, ⟨2, 10⟩, ⟨3, 9⟩, ⟨4, 8⟩]

/-- Fixture: a 13-board where the two diagonals through (6,6) each carry an
open four and no axis carries an open three or an overline. -/
def b13DoubleFour : Board :=
  placeAll (Board.init 13) Cell.BLACK
    [⟨6, 6⟩, ⟨1, 1⟩, ⟨2, 2⟩, ⟨3, 3⟩, ⟨4, 4⟩, ⟨1, 11⟩, ⟨2, 10⟩, ⟨3, 9⟩, ⟨4, 8⟩]

/-- Fixture: a 13-board whose row 6 reads `.BBB.BBB.` around (6,6): two
touching open threes on one axis. -/
def b13OverlapRow : Board :=
  placeAll (Board.init 13) Cell.BLACK
    [⟨6, 1⟩, ⟨6, 2⟩, ⟨6, 3⟩, ⟨6, 5⟩, ⟨6, 6⟩, ⟨6, 7⟩]

/-- Fixture: a 13-board on which Black playing (6,6) would complete open
threes on both the row and the column (a double-three). -/
def b13DoubleThreePre : Board :=
  placeAll (Board.init 13) Cell.BLACK [⟨6, 5⟩, ⟨6, 7⟩, ⟨5, 6⟩, ⟨7, 6⟩]

/-- Fixture: a game mid-match whose next Black placement at (6,6) would be a
double-three. -/
def gC6 : Game := { Game.init 13 "history.log" with board := b13DoubleThreePre }

/-- Fixture: a 5-board full except (0,4), where Black at (0,4) completes
exactly five in row 0; no five-in-line exists anywhere beforehand. -/
def b5FillPre : Board :=
  placeAll
    (placeAll (Board.init 5) Cell.BLACK
      [⟨0, 0⟩, ⟨0, 1⟩, ⟨0, 2⟩, ⟨0, 3⟩, ⟨1, 4⟩, ⟨2, 0⟩, ⟨2, 1⟩, ⟨2, 3⟩,
       ⟨3, 2⟩, ⟨4, 0⟩, ⟨4, 1⟩, ⟨4, 3⟩, ⟨4, 4⟩])
    Cell.WHITE
    [⟨1, 0⟩, ⟨1, 1⟩, ⟨1, 2⟩, ⟨1, 3⟩, ⟨2, 2⟩, ⟨2, 4⟩, ⟨3, 0⟩, ⟨3, 1⟩,
     ⟨3, 3⟩, ⟨3, 4⟩, ⟨4, 2⟩]

/-- Fixture: `b5FillPre` with the final stone placed at (0,4). -/
def b5FillAfter : Board := placeAll b5FillPre Cell.BLACK [⟨0, 4⟩]

/-- Fixture: a game one placement away from a board-filling winning move. -/
def gC7 : Game := { Game.init 5 "history.log" with board := b5FillPre }

/-- Fixture: candidate removal pending but no candidate-owning player
tracked (the internal-consistency fault of game.py line 180). -/
def gC8 : Game := { Game.init 5 "history.log" with
  candidate_points := [(⟨2, 2⟩ : Point), ⟨3, 3⟩],
  candidate_removal_required := true }

/-- Fixture: a finished (drawn) game whose record is not yet persisted. -/
def gC9 : Game := { Game.init 3 "history.log" with status := GameStatus.DRAW }

/-- Fixture: a well-formed candidate-removal phase with two pending
candidates owned by Player 1. -/
def gC10 : Game := { Game.init 5 "history.log" with
  candidate_points := [(⟨1, 1⟩ : Point), ⟨2, 2⟩],
  candidate_removal_required := true,
  candidate_player := some Player.ONE }

/-! Helper lemmas about the Python subscript model. -/

theorem pyIndex_lt (n : Nat) (i : Int) (j : Nat) (h : pyIndex n i = some j) :
    j < n := by
  unfold pyIndex at h
  split_ifs at h with h1 h2
  · simp only [Option.some.injEq] at h
    omega
  · simp only [Option.some.injEq] at h
    omega

theorem pyGet_eq_getD {α : Type} (l : List α) (d : α) (i : Int) :
    pyGet l i = match pyIndex l.length i with
      | some j => Except.ok (l.getD j d)
      | none => Except.error PyErr.indexError := by
  unfold pyGet pyIndex
  split_ifs with h1 h2
  · have hj : i.toNat < l.length := by omega
    simp [List.getD_eq_getElem?_getD, List.getElem?_eq_getElem hj,
      List.get_eq_getElem]
  · have hj : (i + l.length).toNat < l.length := by omega
    simp [List.getD_eq_getElem?_getD, List.getElem?_eq_getElem hj,
      List.get_eq_getElem]
  · rfl

theorem pySet_eq {α : Type} (l : List α) (i : Int) (a : α) :
    pySet l i a = match pyIndex l.length i with
      | some j => Except.ok (l.set j a)
      | none => Except.error PyErr.indexError := by
  unfold pySet pyIndex
  split_ifs with h1 h2 <;> rfl

/-- C1: the claim says every public match operation returns a structured
`MoveResult` and never raises, the rule-engine calls completing normally.
The code contradicts it: on a fresh game the very first placement passes
every validation step and then raises `TypeError`, because game.py calls
`legal_move(board, point, cell)` while rules.py declares
`legal_move(board, point, cell, ruleset)` with no default for `ruleset`. -/
theorem c1_first_placement_raises_type_error :
    (Game.init 15 "history.log").status = GameStatus.PLAYING ∧
    (Game.init 15 "history.log").board.in_bounds ⟨0, 0⟩ = true ∧
    (Game.init 15 "history.log").board.is_empty ⟨0, 0⟩ = Except.ok true ∧
    (Game.place_move (Game.init 15 "history.log") ⟨0, 0⟩).1 =
      Except.error PyErr.typeError :=
  ⟨rfl, by decide, rfl, rfl⟩

/-- C2 counterexample: `Board.get` at the out-of-bounds point (-1, 0) of a
5-board is neither guarded nor failing: it silently reads grid cell (4, 0)
by Python negative indexing, returning the stone placed there. -/
theorem c2_negative_index_reads_cell :
    Board.in_bounds (placeAll (Board.init 5) Cell.BLACK [⟨4, 0⟩]) ⟨-1, 0⟩ =
      false ∧
    Board.get (placeAll (Board.init 5) Cell.BLACK [⟨4, 0⟩]) ⟨-1, 0⟩ =
      Except.ok Cell.BLACK :=
  ⟨by decide, rfl⟩

/-- C2 amended: `Board.get` and `Board.place` do no bounds checking of their
own. On a well-formed board a point whose coordinates both resolve under
Python subscript rules (into `[0,N)` directly, or wrapped by `+N` from
`[-N,0)`) reads or writes the grid cell at the resolved indices, and any
other point raises `IndexError`; every resolved index lies in `[0,N)`. -/
theorem c2_subscript_characterisation (b : Board) (p : Point) (cl : Cell)
    (hb : Board.WF b) :
    (Board.get b p = match pyIndex b.size p.row, pyIndex b.size p.col with
      | some r, some c => Except.ok (b.cellAt (r : Int) (c : Int))
      | _, _ => Except.error PyErr.indexError) ∧
    (Board.place b p cl = match pyIndex b.size p.row, pyIndex b.size p.col with
      | some r, some c =>
          Except.ok { b with grid := b.grid.set r ((b.grid.getD r []).set c cl) }
      | _, _ => Except.error PyErr.indexError) ∧
    (∀ n i j, pyIndex n i = some j → j < n) := by
  obtain ⟨hlen, hrows⟩ := hb
  have hrowlen : ∀ r : Nat, r < b.size → (b.grid.getD r []).length = b.size := by
    intro r hr
    refine hrows _ ?_
    rw [List.getD_eq_getElem?_getD, List.getElem?_eq_getElem (by omega)]
    exact List.getElem_mem _
  refine ⟨?_, ?_, fun n i j h => pyIndex_lt n i j h⟩
  · rw [Board.get, pyGet_eq_getD b.grid ([] : List Cell) p.row, hlen]
    rcases hri : pyIndex b.size p.row with _ | r
    · rfl
    · have hr := pyIndex_lt _ _ _ hri
      simp only
      rw [pyGet_eq_getD (b.grid.getD r []) Cell.EMPTY p.col, hrowlen r hr]
      rcases hci : pyIndex b.size p.col with _ | c
      · rfl
      · simp only [Board.cellAt, Int.toNat_natCast]
  · rw [Board.place, pyGet_eq_getD b.grid ([] : List Cell) p.row, hlen]
    rcases hri : pyIndex b.size p.row with _ | r
    · rfl
    · have hr := pyIndex_lt _ _ _ hri
      simp only
      rw [pySet_eq (b.grid.getD r []) p.col cl, hrowlen r hr]
      rcases hci : pyIndex b.size p.col with _ | c
      · rfl
      · simp only
        rw [pySet_eq b.grid p.row _, hlen, hri]

/-- C2 amended witness: the characterisation applied to a 3-board at the
negative-index point (-1, 2). -/
theorem c2_subscript_characterisation_witness :
    Board.WF (Board.init 3) ∧
    ((Board.get (Board.init 3) ⟨-1, 2⟩ =
        match pyIndex 3 (-1), pyIndex 3 2 with
        | some r, some c => Except.ok ((Board.init 3).cellAt (r : Int) (c : Int))
        | _, _ => Except.error PyErr.indexError) ∧
      (Board.place (Board.init 3) ⟨-1, 2⟩ Cell.WHITE =
        match pyIndex 3 (-1), pyIndex 3 2 with
        | some r, some c =>
            Except.ok { Board.init 3 with
              grid := (Board.init 3).grid.set r
                (((Board.init 3).grid.getD r []).set c Cell.WHITE) }
        | _, _ => Except.error PyErr.indexError) ∧
      (∀ n i j, pyIndex n i = some j → j < n)) :=
  ⟨⟨by decide, by decide⟩,
    c2_subscript_characterisation (Board.init 3) ⟨-1, 2⟩ Cell.WHITE
      ⟨by decide, by decide⟩⟩

/-- C3: `winner_for_move` holds exactly on longest-line length at least five
under Freestyle for any colour and under Renju for White, and on length
exactly five for Black under Renju, so a Black line of six or more is never
a Renju win. -/
theorem c3_winner_characterisation (b : Board) (p : Point) :
    (∀ c : Cell, winner_for_move b p c RuleSet.FREESTYLE =
        decide (5 ≤ (longest_line b p c).length)) ∧
    (winner_for_move b p Cell.WHITE RuleSet.RENJU =
        decide (5 ≤ (longest_line b p Cell.WHITE).length)) ∧
    (winner_for_move b p Cell.BLACK RuleSet.RENJU =
        decide ((longest_line b p Cell.BLACK).length = 5)) ∧
    (6 ≤ (longest_line b p Cell.BLACK).length →
        winner_for_move b p Cell.BLACK RuleSet.RENJU = false) := by
  refine ⟨fun c => ?_, ?_, ?_, fun h6 => ?_⟩
  · simp [winner_for_move]
  · simp [winner_for_move]
  · simp [winner_for_move]
  · have h5 : winner_for_move b p Cell.BLACK RuleSet.RENJU =
        decide ((longest_line b p Cell.BLACK).length = 5) := by
      simp [winner_for_move]
    rw [h5, decide_eq_false_iff_not]
    omega

/-- C3 witness: on a board where Black holds a horizontal run of six, the
Renju win check for Black is false. -/
theorem c3_winner_characterisation_witness :
    6 ≤ (longest_line b13Overline ⟨6, 6⟩ Cell.BLACK).length ∧
    winner_for_move b13Overline ⟨6, 6⟩ Cell.BLACK RuleSet.RENJU = false :=
  ⟨by decide, (c3_winner_characterisation b13Overline ⟨6, 6⟩).2.2.2 (by decide)⟩

/-- C4: `forbidden_move` reports exactly one reason, the first triggered in
the order overline, double-three, double-four; later checks are skipped once
one fires, and no reasons are combined. -/
theorem c4_forbidden_priority (b : Board) (p : Point) :
    (overline_exists b p = true →
      forbidden_move b p = { is_forbidden := true, reason := some "overline" }) ∧
    (overline_exists b p = false → 2 ≤ openThreesTotal b p →
      forbidden_move b p =
        { is_forbidden := true, reason := some "double-three" }) ∧
    (overline_exists b p = false → openThreesTotal b p < 2 →
      2 ≤ openFoursTotal b p →
      forbidden_move b p =
        { is_forbidden := true, reason := some "double-four" }) ∧
    (overline_exists b p = false → openThreesTotal b p < 2 →
      openFoursTotal b p < 2 →
      forbidden_move b p = { is_forbidden := false, reason := none }) := by
  refine ⟨fun h => ?_, fun h h3 => ?_, fun h h3 h4 => ?_, fun h h3 h4 => ?_⟩
  · simp [forbidden_move, h]
  · rw [forbidden_move, if_neg (by simp [h]), if_pos h3]
  · rw [forbidden_move, if_neg (by simp [h]), if_neg (by omega), if_pos h4]
  · rw [forbidden_move, if_neg (by simp [h]), if_neg (by omega), if_neg (by omega)]

/-- C4 witness: four boards instantiating the four branches: an overline
that is simultaneously a double-three reports only "overline"; a
double-three that is simultaneously a double-four reports only
"double-three"; a pure double-four reports "double-four"; an empty board
reports nothing. -/
theorem c4_forbidden_priority_witness :
    (overline_exists b13Overline ⟨6, 6⟩ = true ∧
      2 ≤ openThreesTotal b13Overline ⟨6, 6⟩ ∧
      forbidden_move b13Overline ⟨6, 6⟩ =
        { is_forbidden := true, reason := some "overline" }) ∧
    (overline_exists b13DoubleDouble ⟨6, 6⟩ = false ∧
      2 ≤ openThreesTotal b13DoubleDouble ⟨6, 6⟩ ∧
      2 ≤ openFoursTotal b13DoubleDouble ⟨6, 6⟩ ∧
      forbidden_move b13DoubleDouble ⟨6, 6⟩ =
        { is_forbidden := true, reason := some "double-three" }) ∧
    (overline_exists b13DoubleFour ⟨6, 6⟩ = false ∧
      openThreesTotal b13DoubleFour ⟨6, 6⟩ < 2 ∧
      2 ≤ openFoursTotal b13DoubleFour ⟨6, 6⟩ ∧
      forbidden_move b13DoubleFour ⟨6, 6⟩ =
        { is_forbidden := true, reason := some "double-four" }) ∧
    (overline_exists (Board.init 13) ⟨6, 6⟩ = false ∧
      forbidden_move (Board.init 13) ⟨6, 6⟩ =
        { is_forbidden := false, reason := none }) :=
  ⟨⟨by decide, by decide,
      (c4_forbidden_priority b13Overline ⟨6, 6⟩).1 (by decide)⟩,
   ⟨by decide, by decide, by decide,
      (c4_forbidden_priority b13DoubleDouble ⟨6, 6⟩).2.1 (by decide) (by decide)⟩,
   ⟨by decide, by decide, by decide,
      (c4_forbidden_priority b13DoubleFour ⟨6, 6⟩).2.2.1 (by decide) (by decide)
        (by decide)⟩,
   ⟨by decide,
      (c4_forbidden_priority (Board.init 13) ⟨6, 6⟩).2.2.2 (by decide) (by decide)
        (by decide)⟩⟩

/-- C6: the claim says a forbidden Black placement is reverted, scored as a
White win, recorded and reported as a failure, with no History append. The
code never gets there: the tentative stone at (6,6) is a double-three, but
`place_move` raises `TypeError` at the 3-argument `legal_move` call before
any forbidden determination, leaving the stone on the board, the status
`Playing`, the history untouched and nothing recorded. -/
theorem c6_forbidden_placement_raises_instead :
    forbidden_move (placeAll b13DoubleThreePre Cell.BLACK [⟨6, 6⟩]) ⟨6, 6⟩ =
      { is_forbidden := true, reason := some "double-three" } ∧
    gC6.current_cell = Cell.BLACK ∧
    (Game.place_move gC6 ⟨6, 6⟩).1 = Except.error PyErr.typeError ∧
    (Game.place_move gC6 ⟨6, 6⟩).2.status = GameStatus.PLAYING ∧
    (Game.place_move gC6 ⟨6, 6⟩).2.board.get ⟨6, 6⟩ = Except.ok Cell.BLACK ∧
    (Game.place_move gC6 ⟨6, 6⟩).2.history = [] ∧
    (Game.place_move gC6 ⟨6, 6⟩).2.last_forbidden = none :=
  ⟨by decide, rfl, rfl, rfl, rfl, rfl, rfl⟩

/-- C7: the claim says an accepted placement that wins and fills the board
is scored as a win, never a draw. The code performs neither check: on a
board one stone short of full, where the final Black stone at (0,4) would
complete exactly five, `place_move` raises `TypeError` before the win or
draw check can run, so no placement is ever accepted and no win or draw
status is ever assigned. -/
theorem c7_winning_fill_raises_instead :
    winner_for_move b5FillAfter ⟨0, 4⟩ Cell.BLACK RuleSet.RENJU = true ∧
    winner_for_move b5FillAfter ⟨0, 4⟩ Cell.BLACK RuleSet.FREESTYLE = true ∧
    b5FillAfter.empty_points = [] ∧
    b5FillPre.empty_points = [(⟨0, 4⟩ : Point)] ∧
    (Game.place_move gC7 ⟨0, 4⟩).1 = Except.error PyErr.typeError ∧
    (Game.place_move gC7 ⟨0, 4⟩).2.status = GameStatus.PLAYING ∧
    (Game.place_move gC7 ⟨0, 4⟩).2.history = [] :=
  ⟨by decide, by decide, by decide, by decide, rfl, rfl, rfl⟩

/-- C8 counterexample: completing a candidate removal with no tracked
candidate-owning player is returned as an ordinary rejection `MoveResult`
(success false, unchanged status, message string), not surfaced as a
distinct internal or panic-class error, contradicting the claim that it is
never a normal rejection result. -/
theorem c8_tracking_fault_is_ordinary_rejection :
    gC8.candidate_player = none ∧
    (Game.remove_candidate gC8 ⟨2, 2⟩).1 =
      Except.ok (mkMoveResult false GameStatus.PLAYING
        "Candidate move tracking error.") :=
  ⟨rfl, rfl⟩

/-- C8 amended: in any candidate-removal state with no tracked
candidate-owning player, removing a pending candidate returns the ordinary
failure result with message "Candidate move tracking error." — distinguished
from other rejections only by its message — after the removal and the
clearing of the cycle state have already mutated the game. -/
theorem c8_tracking_fault_result (g : Game) (p q : Point) (b2 : Board)
    (h1 : g.candidate_removal_required = true)
    (h2 : p ∈ g.candidate_points)
    (h3 : g.board.place p Cell.EMPTY = Except.ok b2)
    (h4 : g.candidate_points.find? (fun pt => decide (pt ≠ p)) = some q)
    (h5 : g.candidate_player = none) :
    Game.remove_candidate g p =
      (Except.ok (mkMoveResult false g.status "Candidate move tracking error."),
       { g with
         board := b2, candidate_points := [],
         candidate_removal_required := false, candidate_player := none }) := by
  have hne : g.candidate_points.isEmpty = false := by
    cases hcp : g.candidate_points with
    | nil => exact absurd hcp (List.ne_nil_of_mem h2)
    | cons a l => rfl
  rw [Game.remove_candidate]
  rw [if_neg (by simp [h1, hne]), if_neg (by simp [h2]), h3]
  simp only [h4, h5]

/-- C8 amended witness: the amended statement instantiated on `gC8`. -/
theorem c8_tracking_fault_result_witness :
    gC8.candidate_removal_required = true ∧
    (⟨2, 2⟩ : Point) ∈ gC8.candidate_points ∧
    gC8.board.place ⟨2, 2⟩ Cell.EMPTY = Except.ok (Board.init 5) ∧
    gC8.candidate_points.find? (fun pt => decide (pt ≠ (⟨2, 2⟩ : Point))) =
      some ⟨3, 3⟩ ∧
    gC8.candidate_player = none ∧
    Game.remove_candidate gC8 ⟨2, 2⟩ =
      (Except.ok (mkMoveResult false gC8.status "Candidate move tracking error."),
       { gC8 with
         board := Board.init 5, candidate_points := [],
         candidate_removal_required := false, candidate_player := none }) :=
  ⟨rfl, by decide, rfl, rfl, rfl,
    c8_tracking_fault_result gC8 ⟨2, 2⟩ ⟨3, 3⟩ (Board.init 5)
      rfl (by decide) rfl rfl rfl⟩

/-- C9: persisting a finished match is idempotent: once `save_history` has
run, the saved flag blocks a second serialisation, so saving twice yields a
state (stored content included) identical to saving once, and repeated
terminal-status finalisation is likewise a no-op. -/
theorem c9_persistence_idempotent (g : Game)
    (h : g.status ≠ GameStatus.PLAYING) :
    Game.save_history (Game.save_history g) = Game.save_history g ∧
    Game.finalize_if_complete (Game.finalize_if_complete g) =
      Game.finalize_if_complete g := by
  have hsaved : ∀ g2 : Game, (Game.save_history g2).history_saved = true := by
    intro g2
    by_cases hs : g2.history_saved
    · simp [Game.save_history, hs]
    · cases hlf : g2.last_forbidden <;> simp [Game.save_history, hs, hlf]
  have hid : ∀ g2 : Game, g2.history_saved = true →
      Game.save_history g2 = g2 := by
    intro g2 hs
    simp [Game.save_history, hs]
  have hstat : ∀ g2 : Game, (Game.save_history g2).status = g2.status := by
    intro g2
    by_cases hs : g2.history_saved
    · simp [Game.save_history, hs]
    · cases hlf : g2.last_forbidden <;> simp [Game.save_history, hs, hlf]
  refine ⟨hid _ (hsaved g), ?_⟩
  by_cases hc : g.history_saved
  · have : Game.finalize_if_complete g = g := by
      rw [Game.finalize_if_complete, if_neg (by simp [hc])]
    rw [this, this]
  · have h1 : Game.finalize_if_complete g = Game.save_history g := by
      rw [Game.finalize_if_complete, if_pos ⟨h, hc⟩]
    rw [h1, Game.finalize_if_complete,
      if_neg (by simp [hsaved g])]

/-- C9 witness: the idempotence applied to a finished (drawn) game. -/
theorem c9_persistence_idempotent_witness :
    gC9.status ≠ GameStatus.PLAYING ∧
    (Game.save_history (Game.save_history gC9) = Game.save_history gC9 ∧
     Game.finalize_if_complete (Game.finalize_if_complete gC9) =
       Game.finalize_if_complete gC9) :=
  ⟨by decide, c9_persistence_idempotent gC9 (by decide)⟩

/-- C10: in any candidate-removal state with pending candidates, removing a
point that is not a pending candidate returns the failure result with
message "Select one of the candidate moves to remove." and leaves the whole
game state (board, history, status, candidate list, flags, candidate owner)
unchanged. -/
theorem c10_non_candidate_removal_rejected (g : Game) (p : Point)
    (h1 : g.candidate_removal_required = true)
    (h2 : g.candidate_points ≠ [])
    (h3 : p ∉ g.candidate_points) :
    Game.remove_candidate g p =
      (Except.ok (mkMoveResult false g.status
        "Select one of the candidate moves to remove."), g) := by
  have hne : g.candidate_points.isEmpty = false := by
    cases hcp : g.candidate_points with
    | nil => exact absurd hcp h2
    | cons a l => rfl
  rw [Game.remove_candidate]
  rw [if_neg (by simp [h1, hne]), if_pos h3]

/-- C10 witness: the rejection applied to a well-formed candidate-removal
state and a point outside the candidate list. -/
theorem c10_non_candidate_removal_rejected_witness :
    gC10.candidate_removal_required = true ∧
    gC10.candidate_points ≠ [] ∧
    (⟨0, 0⟩ : Point) ∉ gC10.candidate_points ∧
    Game.remove_candidate gC10 ⟨0, 0⟩ =
      (Except.ok (mkMoveResult false gC10.status
        "Select one of the candidate moves to remove."), gC10) :=
  ⟨rfl, by decide, by decide,
    c10_non_candidate_removal_rejected gC10 ⟨0, 0⟩ rfl (by decide) (by decide)⟩

/-! Occurrence-counting lemmas for the pattern scan of `_count_patterns`. -/

theorem sliceMatch_le {line pat : List Char} {j : Nat} (hpat : pat ≠ [])
    (h : (line.drop j).take pat.length = pat) :
    j + pat.length ≤ line.length := by
  have hlen := congrArg List.length h
  simp only [List.length_take, List.length_drop] at hlen
  have hp : 0 < pat.length := List.length_pos.mpr hpat
  omega

theorem findFrom_some_spec (line pat : List Char) :
    ∀ fuel i idx, findFrom line pat i fuel = some idx →
      i ≤ idx ∧ idx + pat.length ≤ line.length ∧
        (line.drop idx).take pat.length = pat ∧
        ∀ j, i ≤ j → j < idx → (line.drop j).take pat.length ≠ pat := by
  intro fuel
  induction fuel with
  | zero => intro i idx h; exact absurd h (by simp [findFrom])
  | succ fuel ih =>
    intro i idx h
    rw [findFrom] at h
    split_ifs at h with h1 h2
    · simp only [Option.some.injEq] at h
      subst h
      exact ⟨le_refl _, by omega, h2, fun j hj1 hj2 => absurd hj1 (by omega)⟩
    · obtain ⟨ih1, ih2, ih3, ih4⟩ := ih (i + 1) idx h
      refine ⟨by omega, ih2, ih3, fun j hj1 hj2 => ?_⟩
      rcases eq_or_lt_of_le hj1 with rfl | hgt
      · exact h2
      · exact ih4 j (by omega) hj2

theorem findFrom_none_spec (line pat : List Char) :
    ∀ fuel i, line.length + 1 ≤ fuel + i → findFrom line pat i fuel = none →
      ∀ j, i ≤ j → j + pat.length ≤ line.length →
        (line.drop j).take pat.length ≠ pat := by
  intro fuel
  induction fuel with
  | zero =>
    intro i hf _ j hj1 hj2
    exact absurd hj1 (by omega)
  | succ fuel ih =>
    intro i hf h j hj1 hj2
    rw [findFrom] at h
    split_ifs at h with h1 h2
    · exact absurd hj2 (by omega)
    · intro hmatch
      rcases eq_or_lt_of_le hj1 with rfl | hgt
      · exact h2 hmatch
      · exact ih (i + 1) (by omega) h j (by omega) hj2 hmatch

theorem strFind_some_spec (line pat : List Char) (start idx : Nat)
    (h : strFind line pat start = some idx) :
    start ≤ idx ∧ idx + pat.length ≤ line.length ∧
      (line.drop idx).take pat.length = pat ∧
      ∀ j, start ≤ j → j < idx → (line.drop j).take pat.length ≠ pat :=
  findFrom_some_spec line pat _ start idx h

theorem strFind_none_spec (line pat : List Char) (start : Nat)
    (h : strFind line pat start = none) :
    ∀ j, start ≤ j → j + pat.length ≤ line.length →
      (line.drop j).take pat.length ≠ pat :=
  findFrom_none_spec line pat _ start (by omega) h

theorem countLoop_eq_card (line pat : List Char) (hpat : pat ≠ []) :
    ∀ fuel start, line.length + 1 ≤ fuel + start →
      countLoop line pat start fuel =
        ((Finset.Ico start line.length).filter
          (fun i => (line.drop i).take pat.length = pat)).card := by
  intro fuel
  induction fuel with
  | zero =>
    intro start hs
    rw [countLoop, Finset.Ico_eq_empty (by omega), Finset.filter_empty,
      Finset.card_empty]
  | succ fuel ih =>
    intro start hs
    rw [countLoop]
    cases hfind : strFind line pat start with
    | none =>
      have : ((Finset.Ico start line.length).filter
          (fun i => (line.drop i).take pat.length = pat)) = ∅ := by
        rw [Finset.filter_eq_empty_iff]
        intro i hi hP
        rw [Finset.mem_Ico] at hi
        exact strFind_none_spec line pat start hfind i hi.1
          (sliceMatch_le hpat hP) hP
      rw [this, Finset.card_empty]
    | some idx =>
      dsimp only
      obtain ⟨h1, h2, h3, h4⟩ := strFind_some_spec line pat start idx hfind
      have hp : 0 < pat.length := List.length_pos.mpr hpat
      have hidxlt : idx < line.length := by omega
      have hset : ((Finset.Ico start line.length).filter
            (fun i => (line.drop i).take pat.length = pat)) =
          insert idx ((Finset.Ico (idx + 1) line.length).filter
            (fun i => (line.drop i).take pat.length = pat)) := by
        ext i
        simp only [Finset.mem_filter, Finset.mem_Ico, Finset.mem_insert]
        constructor
        · rintro ⟨⟨hsi, hil⟩, hPi⟩
          rcases lt_trichotomy i idx with hlt | heq | hgt
          · exact absurd hPi (h4 i hsi hlt)
          · exact Or.inl heq
          · exact Or.inr ⟨⟨hgt, hil⟩, hPi⟩
        · rintro (rfl | ⟨⟨hgi, hil⟩, hPi⟩)
          · exact ⟨⟨h1, hidxlt⟩, h3⟩
          · exact ⟨⟨by omega, hil⟩, hPi⟩
      rw [hset, Finset.card_insert_of_not_mem (by
        simp only [Finset.mem_filter, Finset.mem_Ico]
        rintro ⟨⟨hc, _⟩, _⟩
        omega)]
      rw [ih (idx + 1) (by omega)]
      omega

/-- C5: the pattern scan is overlap-aware. In general,
`_count_patterns` on a single template counts every offset at which the
template occurs (the scan resumes one past the start of each match, so
touching occurrences are not swallowed); concretely, on the axis string
`.BBB.BBB.` the double-three templates are found at both qualifying offsets,
the count is 2, and the board realising that row is forbidden as
double-three. -/
theorem c5_overlap_counting :
    (∀ line pattern : List Char, pattern ≠ [] →
      count_patterns line [pattern] =
        ((Finset.range line.length).filter
          (fun i => (line.drop i).take pattern.length = pattern)).card) ∧
    open_three_count (".BBB.BBB.".toList) = 2 ∧
    forbidden_move b13OverlapRow ⟨6, 6⟩ =
      { is_forbidden := true, reason := some "double-three" } := by
  refine ⟨fun line pattern hpat => ?_, by decide, by decide⟩
  have h := countLoop_eq_card line pattern hpat (line.length + 1) 0 (by omega)
  rw [count_patterns, List.map_cons, List.map_nil, List.sum_cons, List.sum_nil,
    Nat.add_zero, h, Finset.range_eq_Ico]

/-- C5 witness: the occurrence-count characterisation applied to the
template `.BBB.` on the axis string `.BBB.BBB.`: both counts are 2. -/
theorem c5_overlap_counting_witness :
    (".BBB.".toList ≠ ([] : List Char)) ∧
    count_patterns (".BBB.BBB.".toList) [".BBB.".toList] =
      ((Finset.range (".BBB.BBB.".toList.length)).filter
        (fun i => ((".BBB.BBB.".toList.drop i)).take (".BBB.".toList.length) =
          ".BBB.".toList)).card :=
  ⟨by decide, c5_overlap_counting.1 (".BBB.BBB.".toList) (".BBB.".toList)
    (by decide)⟩

end Renju
